import Mathlib

/-!
Verification development for the EXODUS pipeline core.

Shallow embedding of the pure data-processing logic of
`src/01_EYE_INQUISITION/EXO_01_DNA_SCANNER.py` and
`src/03_LEGION_FORGE/EXO_03_BLENDER_WORKER.py`.
Python floats are embedded as exact rationals, Python dict fields that may be
absent as `Option`, and ambient mutable state (running maxima, accumulators,
per-bone smoothing state) as explicitly threaded state values.
-/

namespace Exodus

/-- Python `int()` truncation toward zero, on a rational value. -/
def pyInt (q : ℚ) : ℤ := if 0 ≤ q then ⌊q⌋ else ⌈q⌉

/-! ### Mouth cues: symbolic branch of `apply_lip_sync`
(EXO_03_BLENDER_WORKER.py lines 816-857) -/

/-- A symbolic mouth cue as read from the mission document.  Each field may be
absent: the source reads them with `cue.get('start', 0.0)`,
`cue.get('end', start_time)` and `cue.get('value', 'X')`.  The `end` field is
named `stop` here because `end` is a Lean keyword. -/
structure MouthCue where
  start : Option ℚ
  stop : Option ℚ
  value : Option String
deriving DecidableEq

/-- Line 840: `start_time = cue.get('start', 0.0)`. -/
def cueStart (c : MouthCue) : ℚ := c.start.getD 0

/-- Line 841: `end_time = cue.get('end', start_time)`. -/
def cueStop (c : MouthCue) : ℚ := c.stop.getD (cueStart c)

/-- Line 842: `value = cue.get('value', 'X')`. -/
def cueValue (c : MouthCue) : String := c.value.getD "X"

/-- Lines 821-828 and 849: the Rhubarb category to ratio table, looked up with
`rhubarb_to_ratio.get(value, 0.0)`, so any unknown category yields `0.0`. -/
def rhubarb_to_ratio (v : String) : ℚ :=
  if v = "A" then 1/10
  else if v = "B" then 2/5
  else if v = "C" then 7/10
  else if v = "E" then 9/10
  else if v = "F" then 1/5
  else if v = "X" then 0
  else 0

/-- Line 845: `start_frame = int(start_time * fps)`. -/
def start_frame (c : MouthCue) (fps : ℚ) : ℤ := pyInt (cueStart c * fps)

/-- Line 846: `end_frame = int(end_time * fps)`. -/
def end_frame (c : MouthCue) (fps : ℚ) : ℤ := pyInt (cueStop c * fps)

/-- Effect of one cue (lines 839-855) on the per-frame keyframed value: every
frame in `range(start_frame, end_frame + 1)` is overwritten with the looked-up
ratio; other frames keep whatever earlier cues wrote. -/
def applyCue (fps : ℚ) (acc : ℤ → Option ℚ) (c : MouthCue) : ℤ → Option ℚ :=
  fun f =>
    if start_frame c fps ≤ f ∧ f ≤ end_frame c fps
    then some (rhubarb_to_ratio (cueValue c))
    else acc f

/-- Final keyframed value at each frame produced by the symbolic (Rhubarb)
branch of `apply_lip_sync` (lines 836-857): cues are processed in list order
and a later keyframe insert at the same frame overwrites an earlier one. -/
def apply_lip_sync_symbolic (cues : List MouthCue) (fps : ℚ) : ℤ → Option ℚ :=
  cues.foldl (applyCue fps) (fun _ => none)

/-! ### Camera motion synthesis: `apply_camera_animation`
(EXO_03_BLENDER_WORKER.py lines 395-508) -/

/-- A 3D vector of rationals (Blender `Vector` restricted to the fields the
camera code reads and writes). -/
structure Vec3 where
  x : ℚ
  y : ℚ
  z : ℚ
deriving DecidableEq

/-- The `optical_flow` block of one camera-motion entry (lines 457-459):
magnitude, mean angle and the sampled flow-vector field. -/
structure OpticalFlow where
  magnitude : ℚ
  angle : ℚ
  flow_vectors : List (ℚ × ℚ)
deriving DecidableEq

/-- One entry of `mission_data['camera']` as the loop reads it (lines 449-454):
a frame number and an optional `optical_flow` block; a missing or empty block
makes the loop `continue` without emitting a keyframe. -/
structure CamSample where
  frame_number : ℤ
  optical_flow : Option OpticalFlow
deriving DecidableEq

/-- A camera keyframe: the location and rotation inserted at a frame by
`keyframe_insert` (lines 486-506). -/
structure CamKeyframe where
  frame_number : ℤ
  location : Vec3
  rotation : Vec3
deriving DecidableEq

/-- The five running accumulators of the camera loop (lines 440-444),
zero-initialized before the loop. -/
structure CamState where
  cx : ℚ
  cy : ℚ
  cz : ℚ
  crx : ℚ
  cry : ℚ
deriving DecidableEq

/-- Lines 415-423: the deterministic intensity schedule keyed by variant id.
The initial formula `1.0 + (variant_id % 3) * 0.3` is overwritten to `0.7`
when `variant_id % 3 == 1` and to `1.5` when `variant_id % 3 == 2`, so the
net cyclic schedule is 1.0, 0.7, 1.5. -/
def camera_intensity (variant_id : ℕ) : ℚ :=
  let intensity_base : ℚ := 1 + ((variant_id % 3 : ℕ) : ℚ) * (3/10)
  if variant_id % 3 = 1 then 7/10
  else if variant_id % 3 = 2 then 3/2
  else intensity_base

/-- Lines 462-467: mean of the sampled flow vectors, `(0, 0)` when the list is
empty. -/
def avg_flow (flow_vectors : List (ℚ × ℚ)) : ℚ × ℚ :=
  if flow_vectors.isEmpty then (0, 0)
  else ((flow_vectors.map Prod.fst).sum / flow_vectors.length,
    (flow_vectors.map Prod.snd).sum / flow_vectors.length)

/-- The literal `3.14159` used at line 479 to recentre the mean flow angle. -/
def pi_approx : ℚ := 314159 / 100000

/-- One iteration of the accumulator updates (lines 461-483) for a sample
whose optical-flow block is present, exactly as the source computes them. -/
def camStep (I : ℚ) (st : CamState) (flow : OpticalFlow) : CamState :=
  let a := avg_flow flow.flow_vectors
  let scaled_x := a.1 * I * (1/10)
  let scaled_y := a.2 * I * (1/10)
  let rot_x := (flow.angle - pi_approx) * (1/20) * I
  let rot_y := flow.magnitude * (1/50) * I
  { cx := st.cx + scaled_x
    cy := st.cy + scaled_y
    cz := st.cz + flow.magnitude * I * (1/100)
    crx := st.crx + rot_x * (1/10)
    cry := st.cry + rot_y * (1/10) }

/-- The keyframe inserted at lines 486-506: base pose plus the current
accumulators; the z rotation keeps its base value. -/
def camKey (baseLoc baseRot : Vec3) (fn : ℤ) (st : CamState) : CamKeyframe :=
  { frame_number := fn
    location := ⟨baseLoc.x + st.cx, baseLoc.y + st.cy, baseLoc.z + st.cz⟩
    rotation := ⟨baseRot.x + st.crx, baseRot.y + st.cry, baseRot.z⟩ }

/-- The camera loop (lines 448-506): samples in list order, skipping entries
without an optical-flow block, accumulating and emitting one keyframe per
processed sample. -/
def camRun (I : ℚ) (baseLoc baseRot : Vec3) (st : CamState) :
    List CamSample → List CamKeyframe
  | [] => []
  | s :: rest =>
    match s.optical_flow with
    | none => camRun I baseLoc baseRot st rest
    | some flow =>
      let st2 := camStep I st flow
      camKey baseLoc baseRot s.frame_number st2 ::
        camRun I baseLoc baseRot st2 rest

/-- EXO_03_BLENDER_WORKER.apply_camera_animation (lines 395-508) as a pure
function of the variant id, the recorded camera samples and the base camera
pose: accumulators start at zero and the loop runs over the samples. -/
def apply_camera_animation (variant_id : ℕ) (camera_data : List CamSample)
    (baseLoc baseRot : Vec3) : List CamKeyframe :=
  camRun (camera_intensity variant_id) baseLoc baseRot ⟨0, 0, 0, 0, 0⟩
    camera_data

/-- Modelled from the spec (section 4.2) for comparison with the source: per
sample, mean flow x and y scaled by I times the damping constant are added to
the X and Y accumulators; magnitude times I times a constant to Z; pan delta
equal to (mean angle minus pi) times I times a constant and tilt delta equal
to magnitude times I times a constant, each times an extra smoothing factor,
to the rotation accumulators; the emitted keyframe is base pose plus current
accumulators. -/
def specCamStep (I : ℚ) (st : CamState) (flow : OpticalFlow) : CamState :=
  let mean := avg_flow flow.flow_vectors
  let pan_delta := (flow.angle - pi_approx) * I * (1/20)
  let tilt_delta := flow.magnitude * I * (1/50)
  { cx := st.cx + mean.1 * (I * (1/10))
    cy := st.cy + mean.2 * (I * (1/10))
    cz := st.cz + flow.magnitude * (I * (1/100))
    crx := st.crx + pan_delta * (1/10)
    cry := st.cry + tilt_delta * (1/10) }

/-- Modelled from the spec (section 4.2): the accumulator run with the
spec-worded per-sample update, emitting base pose plus current accumulators at
each sample frame. -/
def specCamRun (I : ℚ) (baseLoc baseRot : Vec3) (st : CamState) :
    List CamSample → List CamKeyframe
  | [] => []
  | s :: rest =>
    match s.optical_flow with
    | none => specCamRun I baseLoc baseRot st rest
    | some flow =>
      let st2 := specCamStep I st flow
      camKey baseLoc baseRot s.frame_number st2 ::
        specCamRun I baseLoc baseRot st2 rest

/-! ### Actor identity assignment: `process_video`
(EXO_01_DNA_SCANNER.py lines 448-540) -/

/-- One MediaPipe pose landmark as serialized by the scanner:
`{x, y, z, visibility, landmark_id}`. -/
structure MpLandmark where
  x : ℚ
  y : ℚ
  z : ℚ
  visibility : ℚ
  landmark_id : ℤ
deriving DecidableEq

/-- Lines 449-455: one candidate per non-empty skeletal detection, paired with
its anchor, the x coordinate of the nose (landmark index 0). -/
def pose_candidates (dets : List (List MpLandmark)) :
    List (ℚ × List MpLandmark) :=
  dets.filterMap fun pose_lmk =>
    match pose_lmk with
    | [] => none
    | nose :: _ => some (nose.x, pose_lmk)

/-- Line 458: `pose_candidates.sort(key=lambda item: item[0])`.  Python list
sort is a stable ascending sort, embedded as stable insertion sort on the
anchor. -/
def sortCandidates (l : List (ℚ × List MpLandmark)) :
    List (ℚ × List MpLandmark) :=
  List.insertionSort (fun a b => a.1 ≤ b.1) l

/-- Lines 460-480: enumerate the sorted candidates and assign
`actor_id = str(idx)` in that order. -/
def assign_actor_ids (dets : List (List MpLandmark)) :
    List (String × (ℚ × List MpLandmark)) :=
  (sortCandidates (pose_candidates dets)).enum.map fun p => (toString p.1, p.2)

/-- Concrete frame from the spec example: three one-landmark detections with
anchors 0.7, 0.1 and 0.4. -/
def exampleDets : List (List MpLandmark) :=
  [[⟨7/10, 0, 0, 1, 0⟩], [⟨1/10, 0, 0, 1, 0⟩], [⟨2/5, 0, 0, 1, 0⟩]]

instance : IsTotal (ℚ × List MpLandmark) (fun a b => a.1 ≤ b.1) :=
  ⟨fun a b => le_total a.1 b.1⟩

instance : IsTrans (ℚ × List MpLandmark) (fun a b => a.1 ≤ b.1) :=
  ⟨fun _ _ _ hab hbc => le_trans hab hbc⟩

/-- One step of the association loop body (lines 521-526): the candidate
replaces the stored best only when `best_dist is None` or its absolute anchor
difference is strictly smaller. -/
def bestStep (fx : ℚ) (acc : Option String × Option ℚ) (p : String × ℚ) :
    Option String × Option ℚ :=
  match acc with
  | (_, none) => (some p.1, some |p.2 - fx|)
  | (best, some bd) =>
    if |p.2 - fx| < bd then (some p.1, some |p.2 - fx|)
    else (best, some bd)

/-- Lines 512-527 for a frame with at least the detections in
`frame_actor_pose`: fold over the (actor id, center x) pairs in insertion
order, keeping a best actor and best distance. -/
def bestActorFold (ps : List (String × ℚ)) (fx : ℚ) :
    Option String × Option ℚ :=
  ps.foldl (bestStep fx) (none, none)

/-- Lines 512-527 in full: an empty skeletal map sends the face to actor "0";
otherwise the fold result (falling back to "0" if it stayed empty, which only
happens on an empty map). -/
def associate_face (ps : List (String × ℚ)) (fx : ℚ) : String :=
  if ps.isEmpty then "0"
  else ((bestActorFold ps fx).1).getD "0"

/-- Helper mirroring the fold once the first candidate is installed: keep the
current pair unless a later pair has a strictly smaller second component. -/
def firstMin (acc : String × ℚ) : List (String × ℚ) → String × ℚ
  | [] => acc
  | x :: xs => firstMin (if x.2 < acc.2 then x else acc) xs

/-! ### Retargeting: `apply_animation`
(EXO_03_BLENDER_WORKER.py lines 583-752)

In the source, the body of the local helper `_apply_animation_to_armature`
consists only of lines 626-631 (activate the armature, switch to pose mode,
read `target_armature.pose.bones`) and ends without a `return` statement, so
the helper returns `None`.  The per-frame per-bone retargeting loop that the
surrounding docstring describes (lines 682-733, including the visibility
threshold, the slerp smoothing and the `keyframe_insert` calls, and ending
with `return total_frames`) is indented one level deeper: it sits inside the
local function `calculate_bone_rotation` (lines 642-733) after a
`try`/`except` whose two branches both `return` (lines 675-680), making the
whole loop unreachable dead code.  Line 750 then evaluates
`max(total_applied, _apply_animation_to_armature(arm, motion_for_actor))`,
that is `max` of an `int` and `None`, which raises `TypeError` in Python 3. -/

/-- One entry of an actor's `pose_frames` list in the mission document, with
the fields lines 741-748 read. -/
structure PoseFrameIn where
  frame_number : ℤ
  landmarks : List MpLandmark
deriving DecidableEq

/-- One entry of the adapted `motion_for_actor` list built at lines 741-748:
`{frame_number, pose_landmarks}`. -/
structure MotionFrame where
  frame_number : ℤ
  pose_landmarks : List MpLandmark
deriving DecidableEq

/-- Lines 741-748: adapt an actor's `pose_frames` to the format expected by
`_apply_animation_to_armature`. -/
def motion_for_actor (pose_frames : List PoseFrameIn) : List MotionFrame :=
  pose_frames.map fun pf => ⟨pf.frame_number, pf.landmarks⟩

/-- A bone rotation keyframe as `keyframe_insert` at line 729 would record it:
the bone name and the frame number (the rotation value is irrelevant here
because no such keyframe is ever emitted, see below). -/
structure BoneKey where
  bone : String
  frame_number : ℤ
deriving DecidableEq

/-- Lines 634-639: `find_landmark`, first landmark whose `landmark_id`
matches. -/
def find_landmark (landmarks : List MpLandmark) (landmark_id : ℤ) :
    Option MpLandmark :=
  landmarks.find? fun l => l.landmark_id = landmark_id

/-- The executable body of `_apply_animation_to_armature` (lines 625-631):
after the two mode-setting calls and the `pose_bones` read, the function ends
with no `return` statement, so it returns `None` and emits no bone keyframes;
the retargeting loop intended here is unreachable dead code inside
`calculate_bone_rotation` (see the section comment).  The result is the pair
(emitted bone keyframes, returned value). -/
def apply_animation_to_armature (_motion_data : List MotionFrame) :
    List BoneKey × Option ℕ :=
  ([], none)

/-- Python 3 `max(total, r)` where `total : int` and `r : Optional[int]`:
comparing an `int` with `None` raises `TypeError`. -/
def pyMaxIntOpt (total : ℕ) (r : Option ℕ) : Except String ℕ :=
  match r with
  | some n => .ok (Nat.max total n)
  | none => .error "TypeError"

/-- The actor loop of `apply_animation` (lines 735-750): for each actor in
order, adapt its pose frames, run the armature helper, and fold the returned
frame count through `max`, stopping with the raised exception if any step
raises.  Returns the emitted bone keyframes of all processed actors together
with the outcome. -/
def apply_animation_loop (total_applied : ℕ)
    (actors : List (String × List PoseFrameIn)) :
    List BoneKey × Except String ℕ :=
  match actors with
  | [] => ([], .ok total_applied)
  | (_, frames) :: rest =>
    let r := apply_animation_to_armature (motion_for_actor frames)
    match pyMaxIntOpt total_applied r.2 with
    | .error e => (r.1, .error e)
    | .ok t =>
      let rec2 := apply_animation_loop t rest
      (r.1 ++ rec2.1, rec2.2)

/-- EXO_03_BLENDER_WORKER.apply_animation (lines 583-752) restricted to its
data behaviour: the actor dictionary is at least a singleton (line 599 falls
back to actor "0"), `total_applied` starts at 0 (line 735). -/
def apply_animation (actors : List (String × List PoseFrameIn)) :
    List BoneKey × Except String ℕ :=
  apply_animation_loop 0 actors

/-! ### Facial anchor derivation
(EXO_01_DNA_SCANNER.py lines 190-249 and 488-509) -/

/-- One raw facial landmark point as delivered by the face mesh. -/
structure FacePoint where
  x : ℚ
  y : ℚ
  z : ℚ
deriving DecidableEq

/-- Lines 220-229 of `extract_face_landmarks`: the upper lip center is
landmark index 13 when available (`UPPER_LIP_CENTER_ID = 13`). -/
def upper_lip_center (landmarks : List FacePoint) : Option FacePoint :=
  landmarks[13]?

/-- Lines 220-229 of `extract_face_landmarks`: the lower lip center is
landmark index 14 when available (`LOWER_LIP_CENTER_ID = 14`). -/
def lower_lip_center (landmarks : List FacePoint) : Option FacePoint :=
  landmarks[14]?

/-- Lines 488-503 of `process_video`, composed with the lip extraction: the
facial anchor is the midpoint of the two lip-center x coordinates when both
are present, else the upper lip x (the `elif upper` branch), else the x of the
first point of the full landmark set, else the detection is dropped
(`continue`). -/
def face_anchor (landmarks : List FacePoint) : Option ℚ :=
  match upper_lip_center landmarks with
  | some u =>
    match lower_lip_center landmarks with
    | some l => some ((u.x + l.x) / 2)
    | none => some u.x
  | none =>
    match landmarks[0]? with
    | some p => some p.x
    | none => none

end Exodus

namespace Exodus

/-- A lip landmark point, the numpy array `[x, y, z]` passed to
`calculate_mouth_open_ratio`; index 1 of the array is the `y` field. -/
structure LipPoint where
  x : ℚ
  y : ℚ
  z : ℚ
deriving DecidableEq

/-- EXO_01_DNA_SCANNER.calculate_mouth_open_ratio (lines 158-188), with the
ambient `self.max_mouth_distance` (initialized to `0.0` at line 104) threaded
explicitly.  Returns the ratio together with the updated maximum.  When either
lip point is `None` the source returns `0.0` before touching the maximum. -/
def calculate_mouth_open_ratio (maxD : ℚ) (upper lower : Option LipPoint) :
    ℚ × ℚ :=
  match upper, lower with
  | some u, some l =>
    let vertical_distance := |u.y - l.y|
    let m := if vertical_distance > maxD then vertical_distance else maxD
    (if m > 0 then min (vertical_distance / m) 1 else 0, m)
  | _, _ => (0, maxD)

/-- Successive calls of `calculate_mouth_open_ratio` over a list of lip-point
inputs, threading the running maximum; yields each (ratio, maximum after the
call) pair in order. -/
def runMouthRatios (maxD : ℚ) :
    List (Option LipPoint × Option LipPoint) → List (ℚ × ℚ)
  | [] => []
  | (u, l) :: rest =>
    let p := calculate_mouth_open_ratio maxD u l
    p :: runMouthRatios p.2 rest

theorem mouth_step_max_le (maxD : ℚ) (u l : Option LipPoint) :
    maxD ≤ (calculate_mouth_open_ratio maxD u l).2 := by
  match u, l with
  | some u, some l =>
    simp only [calculate_mouth_open_ratio]
    split
    · simp_all
      linarith
    · simp_all
  | none, _ => simp [calculate_mouth_open_ratio]
  | some _, none => simp [calculate_mouth_open_ratio]

theorem mouth_step_bounds (maxD : ℚ) (u l : Option LipPoint) :
    0 ≤ (calculate_mouth_open_ratio maxD u l).1 ∧
      (calculate_mouth_open_ratio maxD u l).1 ≤ 1 := by
  match u, l with
  | some u, some l =>
    simp only [calculate_mouth_open_ratio]
    set d := |u.y - l.y| with hd
    have hd0 : 0 ≤ d := abs_nonneg _
    by_cases h1 : d > maxD
    · rw [if_pos h1]
      by_cases h2 : d > 0
      · rw [if_pos h2]
        constructor
        · exact le_min (div_nonneg hd0 hd0) zero_le_one
        · exact min_le_right _ _
      · rw [if_neg h2]
        exact ⟨le_refl 0, zero_le_one⟩
    · rw [if_neg h1]
      push_neg at h1
      by_cases h2 : maxD > 0
      · rw [if_pos h2]
        constructor
        · exact le_min (div_nonneg hd0 (le_of_lt h2)) zero_le_one
        · exact min_le_right _ _
      · rw [if_neg h2]
        exact ⟨le_refl 0, zero_le_one⟩
  | none, _ => simp [calculate_mouth_open_ratio]
  | some _, none => simp [calculate_mouth_open_ratio]

theorem runMouthRatios_bounds (maxD : ℚ)
    (inputs : List (Option LipPoint × Option LipPoint)) :
    ∀ p ∈ runMouthRatios maxD inputs, 0 ≤ p.1 ∧ p.1 ≤ 1 := by
  induction inputs generalizing maxD with
  | nil => intro p hp; simp [runMouthRatios] at hp
  | cons a rest ih =>
    intro p hp
    obtain ⟨u, l⟩ := a
    simp only [runMouthRatios, List.mem_cons] at hp
    rcases hp with hp | hp
    · subst hp; exact mouth_step_bounds maxD u l
    · exact ih _ p hp

theorem runMouthRatios_chain (maxD : ℚ)
    (inputs : List (Option LipPoint × Option LipPoint)) :
    List.Chain' (fun a b : ℚ × ℚ => a.2 ≤ b.2) (runMouthRatios maxD inputs) := by
  induction inputs generalizing maxD with
  | nil => simp [runMouthRatios]
  | cons a rest ih =>
    obtain ⟨u, l⟩ := a
    simp only [runMouthRatios]
    apply List.chain'_cons'.mpr
    refine ⟨?_, ih _⟩
    intro q hq
    cases rest with
    | nil => simp [runMouthRatios] at hq
    | cons b rs =>
      obtain ⟨u2, l2⟩ := b
      simp only [runMouthRatios, List.head?_cons, Option.mem_def,
        Option.some.injEq] at hq
      subst hq
      exact mouth_step_max_le _ u2 l2

theorem runMouthRatios_ge_start (maxD : ℚ)
    (inputs : List (Option LipPoint × Option LipPoint)) :
    ∀ p ∈ runMouthRatios maxD inputs, maxD ≤ p.2 := by
  induction inputs generalizing maxD with
  | nil => intro p hp; simp [runMouthRatios] at hp
  | cons a rest ih =>
    intro p hp
    obtain ⟨u, l⟩ := a
    simp only [runMouthRatios, List.mem_cons] at hp
    rcases hp with hp | hp
    · subst hp; exact mouth_step_max_le maxD u l
    · exact le_trans (mouth_step_max_le maxD u l) (ih _ p hp)

/-- C8: every returned mouth-open ratio lies in [0, 1]; a missing lip point, or
a zero running maximum after update, yields ratio 0 with the maximum untouched;
and across any sequence of calls the running normalization maximum never
decreases. -/
theorem mouth_ratio_invariant (maxD : ℚ) (u l : Option LipPoint)
    (inputs : List (Option LipPoint × Option LipPoint))
    (hul : u = none ∨ l = none) :
    (∀ p ∈ runMouthRatios maxD inputs, 0 ≤ p.1 ∧ p.1 ≤ 1)
    ∧ List.Chain' (fun a b : ℚ × ℚ => a.2 ≤ b.2) (runMouthRatios maxD inputs)
    ∧ (∀ p ∈ runMouthRatios maxD inputs, maxD ≤ p.2)
    ∧ maxD ≤ (calculate_mouth_open_ratio maxD u l).2
    ∧ calculate_mouth_open_ratio maxD u l = (0, maxD)
    ∧ (∀ u2 l2 : Option LipPoint, (calculate_mouth_open_ratio maxD u2 l2).2 = 0 →
        (calculate_mouth_open_ratio maxD u2 l2).1 = 0)
    ∧ (∀ u2 l2 : Option LipPoint, 0 ≤ (calculate_mouth_open_ratio maxD u2 l2).1 ∧
        (calculate_mouth_open_ratio maxD u2 l2).1 ≤ 1) := by
  refine ⟨runMouthRatios_bounds maxD inputs, runMouthRatios_chain maxD inputs,
    runMouthRatios_ge_start maxD inputs, mouth_step_max_le maxD u l, ?_, ?_,
    fun u2 l2 => mouth_step_bounds maxD u2 l2⟩
  · rcases hul with h | h
    · subst h; simp [calculate_mouth_open_ratio]
    · subst h; cases u <;> simp [calculate_mouth_open_ratio]
  · intro u2 l2 hm
    match u2, l2 with
    | none, _ => simp [calculate_mouth_open_ratio]
    | some _, none => simp [calculate_mouth_open_ratio]
    | some p, some q =>
      simp only [calculate_mouth_open_ratio] at hm ⊢
      rw [hm]
      simp

/-- Witness for C8 at concrete inputs: a missing lower lip gives ratio 0, and
a concrete two-call run stays within bounds. -/
theorem mouth_ratio_invariant_witness :
    calculate_mouth_open_ratio 0 (some ⟨0, 1, 0⟩) none = (0, 0)
    ∧ (∀ p ∈ runMouthRatios 0
        [(some (⟨0, 1, 0⟩ : LipPoint), some (⟨0, 0, 0⟩ : LipPoint)),
          (none, none)], 0 ≤ p.1 ∧ p.1 ≤ 1) :=
  ⟨(mouth_ratio_invariant 0 (some ⟨0, 1, 0⟩) none [] (Or.inr rfl)).2.2.2.2.1,
    (mouth_ratio_invariant 0 (some ⟨0, 1, 0⟩) none
      [(some ⟨0, 1, 0⟩, some ⟨0, 0, 0⟩), (none, none)] (Or.inr rfl)).1⟩

/-- C7: a symbolic cue writes the looked-up ratio exactly on the frames from
`int(start * fps)` through `int(end * fps)` inclusive; later cues in list order
overwrite earlier cues on overlapping frames; the example cue
start 1.0s, end 2.0s, value "C" at 30 fps yields the same value at every frame
30 through 60 inclusive and no keyframes outside that range. -/
theorem lip_sync_cue_range_and_overwrite (cs : List MouthCue) (c : MouthCue)
    (fps : ℚ) (f : ℤ) :
    (apply_lip_sync_symbolic (cs ++ [c]) fps f =
      if start_frame c fps ≤ f ∧ f ≤ end_frame c fps
      then some (rhubarb_to_ratio (cueValue c))
      else apply_lip_sync_symbolic cs fps f)
    ∧ (apply_lip_sync_symbolic [c] fps f =
      if start_frame c fps ≤ f ∧ f ≤ end_frame c fps
      then some (rhubarb_to_ratio (cueValue c))
      else none)
    ∧ (∀ g : ℤ, 30 ≤ g → g ≤ 60 →
      apply_lip_sync_symbolic [⟨some 1, some 2, some "C"⟩] 30 g = some (7/10))
    ∧ (∀ g : ℤ, g < 30 ∨ 60 < g →
      apply_lip_sync_symbolic [⟨some 1, some 2, some "C"⟩] 30 g = none) := by
  refine ⟨?_, ?_, ?_, ?_⟩
  · simp only [apply_lip_sync_symbolic, List.foldl_append, List.foldl_cons,
      List.foldl_nil]
    rfl
  · rfl
  · intro g hg1 hg2
    have hs : start_frame ⟨some 1, some 2, some "C"⟩ (30 : ℚ) = 30 := by
      norm_num [start_frame, cueStart, pyInt]
    have he : end_frame ⟨some 1, some 2, some "C"⟩ (30 : ℚ) = 60 := by
      norm_num [end_frame, cueStop, cueStart, pyInt]
    show applyCue 30 (fun _ => none) ⟨some 1, some 2, some "C"⟩ g = some (7/10)
    rw [applyCue, hs, he, if_pos ⟨hg1, hg2⟩]
    simp [rhubarb_to_ratio, cueValue]
  · intro g hg
    have hs : start_frame ⟨some 1, some 2, some "C"⟩ (30 : ℚ) = 30 := by
      norm_num [start_frame, cueStart, pyInt]
    have he : end_frame ⟨some 1, some 2, some "C"⟩ (30 : ℚ) = 60 := by
      norm_num [end_frame, cueStop, cueStart, pyInt]
    show applyCue 30 (fun _ => none) ⟨some 1, some 2, some "C"⟩ g = none
    rw [applyCue, hs, he, if_neg]
    rcases hg with h | h
    · exact fun hc => absurd hc.1 (by omega)
    · exact fun hc => absurd hc.2 (by omega)

/-- Witness for C7 at a concrete frame inside the example range. -/
theorem lip_sync_cue_range_witness :
    apply_lip_sync_symbolic [⟨some 1, some 2, some "C"⟩] 30 45 = some (7/10) :=
  (lip_sync_cue_range_and_overwrite [] ⟨some 1, some 2, some "C"⟩ 30 45).2.2.1
    45 (by decide) (by decide)

/-- C10: a cue whose `value` is absent, or is none of the categories A, B, C,
E, F, X, still covers its whole frame range, setting the control to ratio 0
(mouth closed) on every frame of the range, rather than being skipped. -/
theorem lip_sync_unknown_value_closed (c : MouthCue) (fps : ℚ) (f : ℤ)
    (hv : ∀ v ∈ (["A", "B", "C", "E", "F", "X"] : List String),
      c.value ≠ some v)
    (hf : start_frame c fps ≤ f ∧ f ≤ end_frame c fps) :
    apply_lip_sync_symbolic [c] fps f = some 0 := by
  have hz : rhubarb_to_ratio (cueValue c) = 0 := by
    cases hc : c.value with
    | none => simp [cueValue, hc, rhubarb_to_ratio]
    | some v =>
      have h1 : v ≠ "A" := fun h => hv "A" (by decide) (h ▸ hc)
      have h2 : v ≠ "B" := fun h => hv "B" (by decide) (h ▸ hc)
      have h3 : v ≠ "C" := fun h => hv "C" (by decide) (h ▸ hc)
      have h4 : v ≠ "E" := fun h => hv "E" (by decide) (h ▸ hc)
      have h5 : v ≠ "F" := fun h => hv "F" (by decide) (h ▸ hc)
      have h6 : v ≠ "X" := fun h => hv "X" (by decide) (h ▸ hc)
      simp [cueValue, hc, rhubarb_to_ratio, h1, h2, h3, h4, h5, h6]
  show applyCue fps (fun _ => none) c f = some 0
  rw [applyCue, if_pos hf, hz]

/-- Witness for C10: a cue carrying the unknown category "Z" writes ratio 0 at
frame 5 of its range. -/
theorem lip_sync_unknown_value_witness :
    apply_lip_sync_symbolic [⟨some 0, some 1, some "Z"⟩] 30 5 = some 0 :=
  lip_sync_unknown_value_closed ⟨some 0, some 1, some "Z"⟩ 30 5
    (by intro v hv h; revert hv; cases h; decide)
    (by norm_num [start_frame, end_frame, cueStart, cueStop, pyInt])

/-- C1: camera-path synthesis is deterministic; the keyframe sequence is a
pure function of the samples, the intensity multiplier and the base pose, so
two runs on equal inputs produce identical keyframes. -/
theorem camera_animation_deterministic (d1 d2 : List CamSample) (v1 v2 : ℕ)
    (l1 l2 r1 r2 : Vec3) (hd : d1 = d2)
    (hI : camera_intensity v1 = camera_intensity v2) (hl : l1 = l2)
    (hr : r1 = r2) :
    apply_camera_animation v1 d1 l1 r1 = apply_camera_animation v2 d2 l2 r2 := by
  unfold apply_camera_animation
  rw [hd, hI, hl, hr]

/-- Witness for C1: variants 0 and 3 share the intensity 1.0, so the two runs
agree keyframe by keyframe on a concrete sample list. -/
theorem camera_animation_deterministic_witness :
    apply_camera_animation 0 [⟨4, some ⟨2, 3, [(1, 2)]⟩⟩] ⟨0, 1, 2⟩ ⟨0, 0, 0⟩ =
      apply_camera_animation 3 [⟨4, some ⟨2, 3, [(1, 2)]⟩⟩] ⟨0, 1, 2⟩ ⟨0, 0, 0⟩ :=
  camera_animation_deterministic _ _ 0 3 _ _ _ _ rfl
    (by norm_num [camera_intensity]) rfl rfl

theorem camStep_eq_specCamStep (I : ℚ) (st : CamState) (flow : OpticalFlow) :
    camStep I st flow = specCamStep I st flow := by
  simp only [camStep, specCamStep, CamState.mk.injEq]
  refine ⟨by ring, by ring, by ring, by ring, by ring⟩

theorem camRun_eq_specCamRun (I : ℚ) (bl br : Vec3) (st : CamState)
    (samples : List CamSample) :
    camRun I bl br st samples = specCamRun I bl br st samples := by
  induction samples generalizing st with
  | nil => rfl
  | cons s rest ih =>
    cases hs : s.optical_flow with
    | none => simp only [camRun, specCamRun, hs, ih]
    | some flow =>
      simp only [camRun, specCamRun, hs, camStep_eq_specCamStep, ih]

/-- C4: the camera loop starts from all-zero accumulators, and on each sample
with flow data adds mean flow x and y scaled by intensity times the damping
constant 0.1 to the X and Y accumulators, magnitude times intensity times 0.01
to Z, pan delta (mean angle minus the pi literal) times intensity times 0.05
and tilt delta magnitude times intensity times 0.02, each times the smoothing
factor 0.1, to the rotation accumulators, and emits the keyframe base pose
plus current accumulators at that frame. -/
theorem camera_accumulation_algorithm (variant_id : ℕ)
    (camera_data : List CamSample) (bl br : Vec3) (I : ℚ) (st : CamState)
    (fn : ℤ) (flow : OpticalFlow) (rest : List CamSample) :
    (apply_camera_animation variant_id camera_data bl br =
      specCamRun (camera_intensity variant_id) bl br ⟨0, 0, 0, 0, 0⟩
        camera_data)
    ∧ (specCamRun I bl br st (⟨fn, some flow⟩ :: rest) =
      camKey bl br fn (specCamStep I st flow) ::
        specCamRun I bl br (specCamStep I st flow) rest)
    ∧ (specCamRun I bl br st (⟨fn, none⟩ :: rest) =
      specCamRun I bl br st rest)
    ∧ (specCamStep I st flow =
      { cx := st.cx + (avg_flow flow.flow_vectors).1 * (I * (1/10))
        cy := st.cy + (avg_flow flow.flow_vectors).2 * (I * (1/10))
        cz := st.cz + flow.magnitude * (I * (1/100))
        crx := st.crx + ((flow.angle - pi_approx) * I * (1/20)) * (1/10)
        cry := st.cry + (flow.magnitude * I * (1/50)) * (1/10) }) := by
  exact ⟨camRun_eq_specCamRun _ bl br _ camera_data, rfl, rfl, rfl⟩

/-- C5: in every frame, the skeletal detections are sorted ascending by their
anchor x and assigned ids "0" to "k-1" in that order: the id column is
exactly the string ranks 0..k-1, the anchor column is ascending, the assigned
candidates are a permutation of the detected ones, and the spec example with
anchors 0.7, 0.1, 0.4 yields "0" at 0.1, "1" at 0.4 and "2" at 0.7. -/
theorem actor_ids_per_frame_rank (dets : List (List MpLandmark)) :
    ((assign_actor_ids dets).map Prod.fst =
      (List.range (pose_candidates dets).length).map toString)
    ∧ List.Sorted (· ≤ ·) ((assign_actor_ids dets).map fun p => p.2.1)
    ∧ ((assign_actor_ids dets).map Prod.snd).Perm (pose_candidates dets)
    ∧ ((assign_actor_ids exampleDets).map (fun p => (p.1, p.2.1)) =
      [("0", 1/10), ("1", 2/5), ("2", 7/10)]) := by
  refine ⟨?_, ?_, ?_, ?_⟩
  · simp only [assign_actor_ids, List.map_map]
    have h1 : (Prod.fst ∘ fun p : ℕ × (ℚ × List MpLandmark) =>
        (toString p.1, p.2)) = toString ∘ Prod.fst := rfl
    rw [h1, ← List.map_map, List.enum_eq_enumFrom, List.enumFrom_map_fst,
      ← List.range_eq_range']
    simp [sortCandidates, List.length_insertionSort]
  · have e : ((assign_actor_ids dets).map fun p => p.2.1) =
        (sortCandidates (pose_candidates dets)).map fun c => c.1 := by
      simp only [assign_actor_ids, List.map_map]
      have h2 : ((fun p : String × (ℚ × List MpLandmark) => p.2.1) ∘
          fun p : ℕ × (ℚ × List MpLandmark) => (toString p.1, p.2)) =
          (fun c : ℚ × List MpLandmark => c.1) ∘ Prod.snd := rfl
      rw [h2, ← List.map_map, List.enum_eq_enumFrom, List.enumFrom_map_snd]
    rw [e]
    exact List.pairwise_map.mpr
      (List.sorted_insertionSort
        (fun a b : ℚ × List MpLandmark => a.1 ≤ b.1)
        (pose_candidates dets))
  · have e : (assign_actor_ids dets).map Prod.snd =
        sortCandidates (pose_candidates dets) := by
      simp only [assign_actor_ids, List.map_map]
      have h3 : (Prod.snd ∘ fun p : ℕ × (ℚ × List MpLandmark) =>
          (toString p.1, p.2)) = Prod.snd := rfl
      rw [h3, List.enum_eq_enumFrom, List.enumFrom_map_snd]
    rw [e]
    exact List.perm_insertionSort _ _
  · have hcand : pose_candidates exampleDets =
        [(7/10, [⟨7/10, 0, 0, 1, 0⟩]), (1/10, [⟨1/10, 0, 0, 1, 0⟩]),
          (2/5, [⟨2/5, 0, 0, 1, 0⟩])] := rfl
    have hsort : sortCandidates (pose_candidates exampleDets) =
        [(1/10, [⟨1/10, 0, 0, 1, 0⟩]), (2/5, [⟨2/5, 0, 0, 1, 0⟩]),
          (7/10, [⟨7/10, 0, 0, 1, 0⟩])] := by
      rw [hcand]
      norm_num [sortCandidates, List.insertionSort, List.orderedInsert]
    simp only [assign_actor_ids, hsort]
    norm_num [List.enum_eq_enumFrom, List.enumFrom]
    refine ⟨by decide, by decide, by decide⟩

theorem foldl_bestStep_eq_firstMin (fx : ℚ) (ps : List (String × ℚ))
    (a : String) (d : ℚ) :
    ps.foldl (bestStep fx) (some a, some d) =
      (some (firstMin (a, d) (ps.map fun q => (q.1, |q.2 - fx|))).1,
        some (firstMin (a, d) (ps.map fun q => (q.1, |q.2 - fx|))).2) := by
  induction ps generalizing a d with
  | nil => rfl
  | cons x xs ih =>
    simp only [List.foldl_cons, List.map_cons, firstMin, bestStep]
    by_cases hx : |x.2 - fx| < d
    · rw [if_pos hx, if_pos hx]
      exact ih x.1 |x.2 - fx|
    · rw [if_neg hx, if_neg hx]
      exact ih a d

theorem bestActorFold_cons (fx : ℚ) (p : String × ℚ)
    (rest : List (String × ℚ)) :
    bestActorFold (p :: rest) fx =
      (some (firstMin (p.1, |p.2 - fx|)
          (rest.map fun q => (q.1, |q.2 - fx|))).1,
        some (firstMin (p.1, |p.2 - fx|)
          (rest.map fun q => (q.1, |q.2 - fx|))).2) := by
  unfold bestActorFold
  rw [List.foldl_cons]
  exact foldl_bestStep_eq_firstMin fx rest p.1 |p.2 - fx|

theorem firstMin_spec (xs : List (String × ℚ)) (y : String × ℚ) :
    ∃ i : ℕ, ∃ hi : i < (y :: xs).length,
      firstMin y xs = (y :: xs).get ⟨i, hi⟩
      ∧ (∀ j (hj : j < (y :: xs).length),
          (firstMin y xs).2 ≤ ((y :: xs).get ⟨j, hj⟩).2)
      ∧ (∀ j (hj : j < (y :: xs).length), j < i →
          (firstMin y xs).2 < ((y :: xs).get ⟨j, hj⟩).2) := by
  induction xs generalizing y with
  | nil =>
    refine ⟨0, by simp, rfl, ?_, ?_⟩
    · intro j hj
      simp only [List.length_singleton, Nat.lt_one_iff] at hj
      subst hj
      simp [firstMin]
    · intro j hj hji
      omega
  | cons x xs ih =>
    by_cases hx : x.2 < y.2
    · have hfm : firstMin y (x :: xs) = firstMin x xs := by
        simp [firstMin, hx]
      obtain ⟨i, hi, heq, hle, hlt⟩ := ih x
      have hxle : (firstMin x xs).2 ≤ x.2 := by
        have := hle 0 (by simp)
        simpa using this
      refine ⟨i + 1, by simpa using Nat.succ_lt_succ hi, ?_, ?_, ?_⟩
      · rw [hfm, heq]
        rfl
      · intro j hj
        cases j with
        | zero =>
          rw [hfm]
          simpa using le_of_lt (lt_of_le_of_lt hxle hx)
        | succ k =>
          rw [hfm]
          have hk : k < (x :: xs).length := by
            simpa using Nat.lt_of_succ_lt_succ hj
          simpa using hle k hk
      · intro j hj hji
        cases j with
        | zero =>
          rw [hfm]
          simpa using lt_of_le_of_lt hxle hx
        | succ k =>
          rw [hfm]
          have hk : k < (x :: xs).length := by
            simpa using Nat.lt_of_succ_lt_succ hj
          have hki : k < i := Nat.lt_of_succ_lt_succ hji
          simpa using hlt k hk hki
    · have hfm : firstMin y (x :: xs) = firstMin y xs := by
        simp [firstMin, hx]
      push_neg at hx
      obtain ⟨i, hi, heq, hle, hlt⟩ := ih y
      have hyle : (firstMin y xs).2 ≤ y.2 := by
        have := hle 0 (by simp)
        simpa using this
      cases i with
      | zero =>
        refine ⟨0, by simp, ?_, ?_, ?_⟩
        · rw [hfm]
          simpa using heq
        · intro j hj
          cases j with
          | zero =>
            rw [hfm]
            simpa using hyle
          | succ k =>
            cases k with
            | zero =>
              rw [hfm]
              simpa using le_trans hyle hx
            | succ m =>
              rw [hfm]
              have hm : m + 1 < (y :: xs).length := by
                simpa using Nat.lt_of_succ_lt_succ hj
              have := hle (m + 1) hm
              simpa using this
        · intro j hj hji
          omega
      | succ k =>
        have hylt : (firstMin y xs).2 < y.2 := by
          have := hlt 0 (by simp) (Nat.succ_pos k)
          simpa using this
        have hk : k < xs.length := by simpa using Nat.lt_of_succ_lt_succ hi
        refine ⟨k + 2, by simpa using Nat.succ_lt_succ (Nat.succ_lt_succ hk),
          ?_, ?_, ?_⟩
        · rw [hfm]
          have : (y :: xs).get ⟨k + 1, hi⟩ = xs.get ⟨k, hk⟩ := rfl
          rw [heq, this]
          rfl
        · intro j hj
          cases j with
          | zero =>
            rw [hfm]
            simpa using le_of_lt hylt
          | succ m =>
            cases m with
            | zero =>
              rw [hfm]
              simpa using le_trans (le_of_lt hylt) hx
            | succ n =>
              rw [hfm]
              have hn : n + 1 < (y :: xs).length := by
                simpa using Nat.lt_of_succ_lt_succ hj
              have := hle (n + 1) hn
              simpa using this
        · intro j hj hji
          cases j with
          | zero =>
            rw [hfm]
            simpa using hylt
          | succ m =>
            cases m with
            | zero =>
              rw [hfm]
              simpa using lt_of_lt_of_le hylt hx
            | succ n =>
              rw [hfm]
              have hn : n + 1 < (y :: xs).length := by
                simpa using Nat.lt_of_succ_lt_succ hj
              have hni : n + 1 < k + 1 := by omega
              have := hlt (n + 1) hn hni
              simpa using this

/-- C6: a facial detection in a frame with skeletal detections is associated
to the skeletal id minimizing the absolute anchor difference, ties broken in
favor of the earliest entry in the per-frame map (insertion order is rank
order); with zero skeletal detections the face goes to id "0"; and the spec
example with facial anchor 0.42 against anchors 0.1, 0.4, 0.7 picks "1". -/
theorem face_association (ps : List (String × ℚ)) (fx : ℚ) :
    (ps = [] → associate_face ps fx = "0")
    ∧ (ps ≠ [] → ∃ i : ℕ, ∃ hi : i < ps.length,
        associate_face ps fx = (ps.get ⟨i, hi⟩).1
        ∧ (∀ j (hj : j < ps.length),
            |(ps.get ⟨i, hi⟩).2 - fx| ≤ |(ps.get ⟨j, hj⟩).2 - fx|)
        ∧ (∀ j (hj : j < ps.length), j < i →
            |(ps.get ⟨i, hi⟩).2 - fx| < |(ps.get ⟨j, hj⟩).2 - fx|))
    ∧ associate_face [("0", 1/10), ("1", 2/5), ("2", 7/10)] (21/50) = "1" := by
  refine ⟨?_, ?_, ?_⟩
  · intro h
    subst h
    rfl
  · intro hne
    match ps with
    | p :: rest =>
      obtain ⟨i, hi, heq, hle, hlt⟩ :=
        firstMin_spec (rest.map fun q => (q.1, |q.2 - fx|)) (p.1, |p.2 - fx|)
      have hi2 : i < (p :: rest).length := by simpa using hi
      have hgetL : ∀ (j : ℕ)
          (hjL : j < ((p.1, |p.2 - fx|) ::
            (rest.map fun q => (q.1, |q.2 - fx|))).length)
          (hj : j < (p :: rest).length),
          ((p.1, |p.2 - fx|) ::
            (rest.map fun q => (q.1, |q.2 - fx|))).get ⟨j, hjL⟩ =
          (((p :: rest).get ⟨j, hj⟩).1, |((p :: rest).get ⟨j, hj⟩).2 - fx|) := by
        intro j hjL hj
        simp only [List.get_eq_getElem]
        cases j with
        | zero => rfl
        | succ k =>
          have hk : k < rest.length := by simpa using hj
          simp [List.getElem_cons_succ, List.getElem_map]
      have hri : firstMin (p.1, |p.2 - fx|)
          (rest.map fun q => (q.1, |q.2 - fx|)) =
          (((p :: rest).get ⟨i, hi2⟩).1,
            |((p :: rest).get ⟨i, hi2⟩).2 - fx|) := by
        rw [heq]
        exact hgetL i hi hi2
      refine ⟨i, hi2, ?_, ?_, ?_⟩
      · have hassoc : associate_face (p :: rest) fx =
            (firstMin (p.1, |p.2 - fx|)
              (rest.map fun q => (q.1, |q.2 - fx|))).1 := by
          unfold associate_face
          rw [if_neg (by simp), bestActorFold_cons]
          rfl
        rw [hassoc, hri]
      · intro j hj
        have hjL : j < ((p.1, |p.2 - fx|) ::
            (rest.map fun q => (q.1, |q.2 - fx|))).length := by
          simpa using hj
        have h1 := hle j hjL
        rw [hri, hgetL j hjL hj] at h1
        exact h1
      · intro j hj hji
        have hjL : j < ((p.1, |p.2 - fx|) ::
            (rest.map fun q => (q.1, |q.2 - fx|))).length := by
          simpa using hj
        have h1 := hlt j hjL hji
        rw [hri, hgetL j hjL hj] at h1
        exact h1
  · have a0 : |(1 : ℚ)/10 - 21/50| = 8/25 := by
      rw [show (1 : ℚ)/10 - 21/50 = -(8/25) by norm_num, abs_neg,
        abs_of_nonneg (by norm_num : (0 : ℚ) ≤ 8/25)]
    have a1 : |(2 : ℚ)/5 - 21/50| = 1/50 := by
      rw [show (2 : ℚ)/5 - 21/50 = -(1/50) by norm_num, abs_neg,
        abs_of_nonneg (by norm_num : (0 : ℚ) ≤ 1/50)]
    have a2 : |(7 : ℚ)/10 - 21/50| = 7/25 := by
      rw [show (7 : ℚ)/10 - 21/50 = 7/25 by norm_num,
        abs_of_nonneg (by norm_num : (0 : ℚ) ≤ 7/25)]
    have e1 : bestStep (21/50) ((none, none) : Option String × Option ℚ)
        ("0", 1/10) = (some "0", some (8/25)) := by
      show ((some "0" : Option String), some |(1 : ℚ)/10 - 21/50|) =
        (some "0", some ((8 : ℚ)/25))
      rw [a0]
    have e2 : bestStep (21/50) (some "0", some (8/25)) ("1", 2/5) =
        (some "1", some (1/50)) := by
      show (if |(2 : ℚ)/5 - 21/50| < 8/25
          then ((some "1" : Option String), some |(2 : ℚ)/5 - 21/50|)
          else (some "0", some ((8 : ℚ)/25))) = (some "1", some ((1 : ℚ)/50))
      simp only [a1]
      rw [if_pos (by norm_num : (1 : ℚ)/50 < 8/25)]
    have e3 : bestStep (21/50) (some "1", some (1/50)) ("2", 7/10) =
        (some "1", some (1/50)) := by
      show (if |(7 : ℚ)/10 - 21/50| < 1/50
          then ((some "2" : Option String), some |(7 : ℚ)/10 - 21/50|)
          else (some "1", some ((1 : ℚ)/50))) = (some "1", some ((1 : ℚ)/50))
      simp only [a2]
      rw [if_neg (by norm_num : ¬((7 : ℚ)/25 < 1/50))]
    unfold associate_face bestActorFold
    rw [if_neg (by simp), List.foldl_cons, e1, List.foldl_cons, e2,
      List.foldl_cons, e3, List.foldl_nil]
    rfl

/-- C2 (against the claim): `apply_animation` always raises `TypeError` for
any non-empty actor dictionary, including an actor whose pose-frame sequence
is empty, and emits zero bone keyframes: `_apply_animation_to_armature`
returns `None` because its retargeting loop is unreachable dead code, and
line 750 computes `max(total_applied, None)`. -/
theorem retargeting_raises_type_error
    (actors : List (String × List PoseFrameIn)) (hne : actors ≠ []) :
    apply_animation actors = ([], Except.error "TypeError")
    ∧ apply_animation [("0", [])] = ([], Except.error "TypeError") := by
  refine ⟨?_, rfl⟩
  match actors with
  | (aid, frames) :: rest => rfl

/-- Witness for C2: the concrete failing input, one actor "0" with an empty
pose-frame list. -/
theorem retargeting_raises_type_error_witness :
    apply_animation [("0", [])] = ([], Except.error "TypeError") :=
  (retargeting_raises_type_error [("0", [])] (by simp)).1

/-- C3 (against the claim): even for a pose frame whose mapped landmarks are
present and fully visible (ids 5 and 7, visibility 1, nonzero direction), the
retargeting pipeline emits no bone keyframe at all and raises `TypeError`,
because the per-frame per-bone update loop (visibility threshold, shortest-arc
rotation, slerp weight 0.7) is unreachable dead code inside
`calculate_bone_rotation`. -/
theorem retargeting_per_bone_update_dead (frames : List PoseFrameIn) :
    (apply_animation [("0", frames)]).1 = []
    ∧ (apply_animation [("0", frames)]).2 = Except.error "TypeError"
    ∧ find_landmark [⟨0, 0, 0, 1, 5⟩, ⟨1, 1, 0, 1, 7⟩] 5 =
      some ⟨0, 0, 0, 1, 5⟩
    ∧ find_landmark [⟨0, 0, 0, 1, 5⟩, ⟨1, 1, 0, 1, 7⟩] 7 =
      some ⟨1, 1, 0, 1, 7⟩ :=
  ⟨rfl, rfl, rfl, rfl⟩

/-- C9: the facial anchor is the midpoint of the two lip-center x coordinates
when both are present; with exactly one lip center present, that point can
only be the upper one (index 14 exists only if index 13 does) and its x is the
anchor; with no lip center the x of the first landmark is used; a detection
with no landmarks at all is dropped. -/
theorem face_anchor_derivation (L : List FacePoint) :
    (∀ u l, upper_lip_center L = some u → lower_lip_center L = some l →
      face_anchor L = some ((u.x + l.x) / 2))
    ∧ (∀ u, upper_lip_center L = some u → lower_lip_center L = none →
      face_anchor L = some u.x)
    ∧ (∀ l, lower_lip_center L = some l → ∃ u, upper_lip_center L = some u)
    ∧ (∀ p, upper_lip_center L = none → L[0]? = some p →
      face_anchor L = some p.x)
    ∧ (upper_lip_center L = none → L[0]? = none → face_anchor L = none) := by
  refine ⟨?_, ?_, ?_, ?_, ?_⟩
  · intro u l hu hl
    simp [face_anchor, hu, hl]
  · intro u hu hl
    simp [face_anchor, hu, hl]
  · intro l hl
    have h14 : 14 < L.length := by
      rcases List.getElem?_eq_some.mp hl with ⟨h, -⟩
      exact h
    have h13 : 13 < L.length := by omega
    exact ⟨L.get ⟨13, h13⟩, by
      simp [upper_lip_center, List.getElem?_eq_getElem h13]⟩
  · intro p hu h0
    simp [face_anchor, hu, h0]
  · intro hu h0
    simp [face_anchor, hu, h0]

/-- Witness for C9: a single-landmark detection has no lip centers and falls
back to the x of its first landmark. -/
theorem face_anchor_derivation_witness :
    face_anchor [⟨3, 0, 0⟩] = some 3 :=
  (face_anchor_derivation [⟨3, 0, 0⟩]).2.2.2.1 ⟨3, 0, 0⟩ rfl rfl

/-- Witness for C6: the nonempty-frame argmin clause applied to a concrete
two-actor frame. -/
theorem face_association_witness :
    associate_face [("0", 0), ("1", 1)] 1 = "1" ∨
      associate_face [("0", 0), ("1", 1)] 1 = "0" := by
  obtain ⟨i, hi, heq, -, -⟩ :=
    (face_association [("0", 0), ("1", 1)] 1).2.1 (by simp)
  match i, hi with
  | 0, _ => exact Or.inr heq
  | 1, _ => exact Or.inl heq

end Exodus
